import Mathlib

/-!
# Verification of `verify_setup.py` (ReCom repository)

A shallow embedding of the single source file `src/verify_setup.py`, a
diagnostic script that runs four independent environment checks and exits
with code 0 when all pass and 1 otherwise.

The environment the script inspects (interpreter version, importable
modules, existing directories, subprocess results) is modelled as an
explicit `Env` record; each Python function becomes a Lean function over
that record.  Printing is side-effect-only in the source and never affects
a return value, so the embedding drops the `print` calls; where a loop
body both prints and updates state, the state update is kept exactly as in
the source.  Exception flow (`try`/`except`) is modelled twice: the checks
themselves are total functions in which the `except` handlers are merged
into the control flow exactly as the source dictates, and separate
`...Exc` variants keep the raising/catching structure explicit in an
`Except` type so that "no exception escapes" is a provable statement.
-/

namespace VerifySetup

/-- The interpreter version triple `sys.version_info` read by `check_python_version` (`major`, `minor`, `micro`). -/
structure VersionInfo where
  major : Nat
  minor : Nat
  micro : Nat
deriving DecidableEq, Repr

/-- A loaded Python module as far as the script observes it: the only
attribute ever read is the optional `__version__` string
(`getattr(module, "__version__", "unknown")`). -/
structure Module where
  versionAttr : Option String
deriving DecidableEq, Repr

/-- Outcome of one `subprocess.run([...], capture_output=True, text=True,
check=True)` call: either exit status 0 with captured standard output, or
the two failure modes the source handles — a non-zero exit status (which
`check=True` turns into `CalledProcessError`) or a missing executable
(`FileNotFoundError`). -/
inductive RunResult where
  | ok (stdout : String)
  | calledProcessError
  | fileNotFoundError
deriving DecidableEq, Repr

/-- The Python exception classes that can be raised inside the script's
`try` blocks. -/
inductive PyError where
  | importError
  | calledProcessError
  | fileNotFoundError
deriving DecidableEq, Repr

/-- The state of the inspected environment:
`version` is `sys.version_info`; `importMod name` is the result of
`__import__(name)` (`none` models `ImportError`); `isdir p` is
`os.path.isdir(p)` relative to the current working directory; `run cmd`
is the outcome of `subprocess.run(cmd, ...)`. -/
structure Env where
  version : VersionInfo
  importMod : String → Option Module
  isdir : String → Bool
  run : List String → RunResult

/-- Function `check_python_version` (lines 18-41): returns
`version.major >= 3 and version.minor >= 9`.  The prints of the current
version and platform have no effect on the result. -/
def check_python_version (v : VersionInfo) : Bool :=
  if v.major ≥ 3 && v.minor ≥ 9 then
    true
  else
    false

/-- The fixed `(package_name, import_name)` list of `check_required_packages`
(lines 56-64). -/
def packages : List (String × String) :=
  [("numpy", "numpy"),
   ("pandas", "pandas"),
   ("scipy", "scipy"),
   ("matplotlib", "matplotlib"),
   ("seaborn", "seaborn"),
   ("jupyter", "jupyter"),
   ("ipython", "IPython")]

/-- The loop of `check_required_packages` (lines 68-80), carrying the
`all_ok` accumulator and also recording which import names were attempted
(in order).  Each iteration tries `__import__(import_name)`; on success it
reads the optional version attribute (printed only), on `ImportError` it
sets `all_ok = False` and the loop continues with the next entry. -/
def packagesLoop (env : Env) (all_ok : Bool) :
    List (String × String) → Bool × List String
  | [] => (all_ok, [])
  | (_, import_name) :: rest =>
    match env.importMod import_name with
    | some m =>
      -- version = getattr(module, "__version__", "unknown"); printed only
      let _version := m.versionAttr.getD "unknown"
      let (b, att) := packagesLoop env all_ok rest
      (b, import_name :: att)
    | none =>
      -- except ImportError: print "NOT FOUND"; all_ok = False
      let (b, att) := packagesLoop env false rest
      (b, import_name :: att)

/-- Function `check_required_packages` (lines 44-82): the boolean it returns. -/
def check_required_packages (env : Env) : Bool :=
  (packagesLoop env true packages).1

/-- The import names attempted by `check_required_packages`, in loop order. -/
def attemptedImports (env : Env) : List String :=
  (packagesLoop env true packages).2

/-- The fixed directory list of `check_directory_structure` (lines 98-107). -/
def directories : List String :=
  ["data", "data/raw", "data/processed", "notebooks",
   "src", "models", "tests", "docs"]

/-- The loop of `check_directory_structure` (lines 111-117): both branches
only print (a checkmark line or a warning line); neither branch writes to
`all_ok`, which therefore threads through unchanged. -/
def directoryLoop (env : Env) (all_ok : Bool) : List String → Bool
  | [] => all_ok
  | d :: rest =>
    let all_ok' := if env.isdir d then all_ok else all_ok
    directoryLoop env all_ok' rest

/-- Function `check_directory_structure` (lines 85-118): starts `all_ok = True`,
runs the loop, returns `all_ok`. -/
def check_directory_structure (env : Env) : Bool :=
  directoryLoop env true directories

/-- Argument list of the first subprocess call in `check_git_setup`. -/
def gitConfigUserName : List String := ["git", "config", "user.name"]

/-- Argument list of the second subprocess call in `check_git_setup`. -/
def gitConfigUserEmail : List String := ["git", "config", "user.email"]

/-- Function `check_git_setup` (lines 121-171), returning its boolean together with
the trace of subprocess argument lists actually invoked, in order.
If `.git` is not a directory it returns `False` before any subprocess call.
Otherwise it runs `git config user.name`; on success it runs
`git config user.email`; on success of both it returns `True`.  With
`check=True`, a non-zero exit raises `CalledProcessError`, and a missing
executable raises `FileNotFoundError`; both are caught by the single
`except` clause, which returns `False`. -/
def check_git_setup (env : Env) : Bool × List (List String) :=
  if env.isdir ".git" = false then
    (false, [])
  else
    match env.run gitConfigUserName with
    | RunResult.ok _ =>
      match env.run gitConfigUserEmail with
      | RunResult.ok _ => (true, [gitConfigUserName, gitConfigUserEmail])
      | RunResult.calledProcessError =>
        (false, [gitConfigUserName, gitConfigUserEmail])
      | RunResult.fileNotFoundError =>
        (false, [gitConfigUserName, gitConfigUserEmail])
    | RunResult.calledProcessError => (false, [gitConfigUserName])
    | RunResult.fileNotFoundError => (false, [gitConfigUserName])

/-- Function `main` (lines 204-237): runs the four checks in the fixed source
order, and returns 0 when all are true and 1 otherwise; `sys.exit(main())`
(line 242) makes this the process exit code. -/
def main (env : Env) : Nat :=
  let checks : List Bool :=
    [check_python_version env.version,
     check_required_packages env,
     check_directory_structure env,
     (check_git_setup env).1]
  if checks.all id then 0 else 1

/-- The four checks indexed in source order, for stating order
independence. -/
def checkByIndex (env : Env) : Fin 4 → Bool
  | 0 => check_python_version env.version
  | 1 => check_required_packages env
  | 2 => check_directory_structure env
  | 3 => (check_git_setup env).1

/-- Variant of `main` with the checks executed in an arbitrary order: the checks
listed by `order` are evaluated and the exit code computed from their
conjunction exactly as in `main`. -/
def mainWithOrder (env : Env) (order : List (Fin 4)) : Nat :=
  if (order.map (checkByIndex env)).all id then 0 else 1

/-! ## Exception-explicit variants

These keep the raising operations and the `except` clauses visible in an
`Except PyError` type.  An `.error` result of a whole check would be an
exception escaping to the caller. -/

/-- Dynamic import `__import__(name)` with its failure mode explicit: raises
`ImportError` when the module is not found. -/
def importModExc (env : Env) (name : String) : Except PyError Module :=
  match env.importMod name with
  | some m => Except.ok m
  | none => Except.error PyError.importError

/-- Call `subprocess.run(cmd, ..., check=True)` with its failure modes
explicit: raises `CalledProcessError` on non-zero exit and
`FileNotFoundError` when the executable is missing. -/
def subprocessRunExc (env : Env) (cmd : List String) : Except PyError String :=
  match env.run cmd with
  | RunResult.ok s => Except.ok s
  | RunResult.calledProcessError => Except.error PyError.calledProcessError
  | RunResult.fileNotFoundError => Except.error PyError.fileNotFoundError

/-- The loop of `check_required_packages` with exceptions explicit: each
iteration's `try` body may raise, the `except ImportError` clause catches
exactly `ImportError` (setting `all_ok = False` and continuing); any other
exception class would propagate out of the loop. -/
def packagesLoopExc (env : Env) (all_ok : Bool) :
    List (String × String) → Except PyError Bool
  | [] => Except.ok all_ok
  | (_, import_name) :: rest =>
    match importModExc env import_name with
    | Except.ok m =>
      let _version := m.versionAttr.getD "unknown"
      packagesLoopExc env all_ok rest
    | Except.error PyError.importError => packagesLoopExc env false rest
    | Except.error e => Except.error e

/-- Function `check_required_packages` with exceptions explicit. -/
def checkRequiredPackagesExc (env : Env) : Except PyError Bool :=
  packagesLoopExc env true packages

/-- Function `check_git_setup` with exceptions explicit: the `try` body performs the
two subprocess calls; the `except (CalledProcessError, FileNotFoundError)`
clause catches exactly those two classes and returns `False`; any other
exception class would propagate. -/
def checkGitSetupExc (env : Env) : Except PyError Bool :=
  if env.isdir ".git" = false then
    Except.ok false
  else
    let body : Except PyError Bool :=
      match subprocessRunExc env gitConfigUserName with
      | Except.ok _ =>
        match subprocessRunExc env gitConfigUserEmail with
        | Except.ok _ => Except.ok true
        | Except.error e => Except.error e
      | Except.error e => Except.error e
    match body with
    | Except.ok b => Except.ok b
    | Except.error PyError.calledProcessError => Except.ok false
    | Except.error PyError.fileNotFoundError => Except.ok false
    | Except.error e => Except.error e

/-! ## Environments used as concrete witnesses -/

/-- The end-to-end scenario of §8 of the spec: interpreter 3.11, all seven
dependencies importable, zero expected directories present, and no
version-control metadata directory. -/
def scenarioEnv : Env where
  version := ⟨3, 11, 0⟩
  importMod := fun _ => some ⟨none⟩
  isdir := fun _ => false
  run := fun _ => RunResult.fileNotFoundError

/-- An environment whose metadata directory exists but in which every
subprocess call exits non-zero. -/
def gitFailEnv : Env where
  version := ⟨3, 13, 0⟩
  importMod := fun _ => some ⟨none⟩
  isdir := fun _ => true
  run := fun _ => RunResult.calledProcessError

/-! ## Helper lemmas -/

/-- The package loop computes the conjunction of importability over its
list, threaded through the accumulator, and attempts every entry. -/
lemma packagesLoop_spec (env : Env) (acc : Bool) (l : List (String × String)) :
    packagesLoop env acc l
      = (acc && l.all (fun p => (env.importMod p.2).isSome),
         l.map (fun p => p.2)) := by
  induction l generalizing acc with
  | nil => simp [packagesLoop]
  | cons hd tl ih =>
    obtain ⟨pn, im⟩ := hd
    cases h : env.importMod im with
    | some m => simp [packagesLoop, h, ih, Bool.and_assoc]
    | none => simp [packagesLoop, h, ih]

/-- The directory loop never modifies its accumulator. -/
lemma directoryLoop_eq (env : Env) (acc : Bool) (l : List String) :
    directoryLoop env acc l = acc := by
  induction l generalizing acc with
  | nil => rfl
  | cons hd tl ih => simp [directoryLoop, ih]

/-- The exception-explicit package loop never propagates an error and
agrees with the total loop. -/
lemma packagesLoopExc_eq_ok (env : Env) (acc : Bool)
    (l : List (String × String)) :
    packagesLoopExc env acc l = Except.ok (packagesLoop env acc l).1 := by
  induction l generalizing acc with
  | nil => rfl
  | cons hd tl ih =>
    obtain ⟨pn, im⟩ := hd
    cases h : env.importMod im with
    | some m => simp [packagesLoopExc, packagesLoop, importModExc, h, ih]
    | none => simp [packagesLoopExc, packagesLoop, importModExc, h, ih]

/-- The exception-explicit git check never propagates an error and agrees
with the total check. -/
lemma checkGitSetupExc_eq_ok (env : Env) :
    checkGitSetupExc env = Except.ok (check_git_setup env).1 := by
  unfold checkGitSetupExc check_git_setup subprocessRunExc
  cases hdir : env.isdir ".git" with
  | false => simp
  | true =>
    simp only [hdir]
    cases h1 : env.run gitConfigUserName with
    | ok s1 =>
      cases h2 : env.run gitConfigUserEmail <;> simp
    | calledProcessError => simp
    | fileNotFoundError => simp

/-- A permutation of a list leaves `List.all` unchanged. -/
lemma perm_all_eq {α : Type} (p : α → Bool) {l₁ l₂ : List α}
    (h : l₁.Perm l₂) : l₁.all p = l₂.all p := by
  induction h with
  | nil => rfl
  | cons x _ ih => simp [List.all_cons, ih]
  | swap x y l =>
    simp [List.all_cons, ← Bool.and_assoc, Bool.and_comm (p y) (p x)]
  | trans _ _ ih₁ ih₂ => exact ih₁.trans ih₂

/-! ## Claim theorems -/

/-- C1: the claim says the version check accepts every version that is at
least 3.9, including versions with major > 3 such as 4.0.  The code
computes `major >= 3 and minor >= 9`, so at interpreter version 4.0 —
which is ≥ 3.9 and which the function's own docstring and comment
("check if the version is at least 3.9") say should pass — the check
returns false.  This theorem evaluates the embedded check at that failing
input. -/
theorem check_python_version_rejects_4_0 :
    check_python_version ⟨4, 0, 0⟩ = false := by
  rfl

/-- C2: the version check returns true exactly when the major version is
≥ 3 and the minor version is ≥ 9, and it always yields a definite
boolean. -/
theorem check_python_version_iff (v : VersionInfo) :
    (check_python_version v = true ↔ (3 ≤ v.major ∧ 9 ≤ v.minor)) ∧
    (check_python_version v = true ∨ check_python_version v = false) := by
  constructor
  · simp [check_python_version]
  · cases h : check_python_version v
    · exact Or.inr rfl
    · exact Or.inl rfl

/-- C3: the exit code is 0 exactly when all four checks return true and is
1 otherwise; in the spec's end-to-end scenario (interpreter 3.11, all
dependencies importable, no directories present, no metadata directory)
the aggregate fails and the exit code is 1. -/
theorem main_exit_code (env : Env) :
    (main env = 0 ↔
      (check_python_version env.version = true ∧
       check_required_packages env = true ∧
       check_directory_structure env = true ∧
       (check_git_setup env).1 = true)) ∧
    (main env = 0 ∨ main env = 1) ∧
    main scenarioEnv = 1 := by
  refine ⟨?_, ?_, rfl⟩
  · unfold main
    simp [List.all_cons]
  · simp only [main]
    split
    · exact Or.inl rfl
    · exact Or.inr rfl

/-- C4: the dependency check returns the conjunction of importability over
the fixed seven-entry package list, and every entry's import is attempted
regardless of earlier failures (no short-circuit). -/
theorem check_required_packages_conj (env : Env) :
    check_required_packages env
      = packages.all (fun p => (env.importMod p.2).isSome) ∧
    attemptedImports env = packages.map (fun p => p.2) := by
  constructor
  · unfold check_required_packages
    rw [packagesLoop_spec]
    simp
  · unfold attemptedImports
    rw [packagesLoop_spec]

/-- C5: the directory-structure check returns true for every combination
of present and absent directories: absence only produces a warning and
never flips the result. -/
theorem check_directory_structure_always_true (env : Env) :
    check_directory_structure env = true := by
  unfold check_directory_structure
  exact directoryLoop_eq env true directories

/-- C6: when the `.git` metadata directory is absent, the git check
returns false with an empty subprocess trace — no subprocess is ever
invoked. -/
theorem check_git_setup_no_gitdir (env : Env)
    (h : env.isdir ".git" = false) :
    check_git_setup env = (false, []) := by
  simp [check_git_setup, h]

/-- Witness for C6: in the scenario environment the metadata directory is
absent and the git check returns false with no subprocess invoked. -/
theorem check_git_setup_no_gitdir_witness :
    scenarioEnv.isdir ".git" = false ∧
    check_git_setup scenarioEnv = (false, []) :=
  ⟨rfl, check_git_setup_no_gitdir scenarioEnv rfl⟩

/-- C7: the git check succeeds exactly when the metadata directory exists
and both configuration reads exit successfully; every failure of either
subprocess call (non-zero exit or missing executable) is caught, the check
returns false, and — per the exception-explicit semantics — no exception
escapes the check. -/
theorem check_git_setup_iff (env : Env) :
    ((check_git_setup env).1 = true ↔
      (env.isdir ".git" = true ∧
       (∃ s, env.run gitConfigUserName = RunResult.ok s) ∧
       (∃ s, env.run gitConfigUserEmail = RunResult.ok s))) ∧
    checkGitSetupExc env = Except.ok (check_git_setup env).1 := by
  refine ⟨?_, checkGitSetupExc_eq_ok env⟩
  unfold check_git_setup
  cases hdir : env.isdir ".git" with
  | false => simp
  | true =>
    simp only [hdir]
    cases h1 : env.run gitConfigUserName with
    | ok s1 =>
      cases h2 : env.run gitConfigUserEmail <;> simp [h1, h2]
    | calledProcessError => simp [h1]
    | fileNotFoundError => simp [h1]

/-- C8: in every environment state, no exception escapes any check: the
exception-explicit semantics of the two checks that contain raising
operations always return a boolean (the version and directory checks
contain no raising operation at all and are already total boolean
functions), and the script runs to completion with exit code 0 or 1. -/
theorem no_exception_escapes (env : Env) :
    checkRequiredPackagesExc env = Except.ok (check_required_packages env) ∧
    checkGitSetupExc env = Except.ok ((check_git_setup env).1) ∧
    (check_python_version env.version = true ∨
     check_python_version env.version = false) ∧
    check_directory_structure env = true ∧
    (main env = 0 ∨ main env = 1) := by
  refine ⟨packagesLoopExc_eq_ok env true packages, checkGitSetupExc_eq_ok env,
    ?_, ?_, ?_⟩
  · cases h : check_python_version env.version
    · exact Or.inr rfl
    · exact Or.inl rfl
  · unfold check_directory_structure
    exact directoryLoop_eq env true directories
  · simp only [main]
    split
    · exact Or.inl rfl
    · exact Or.inr rfl

/-- C9: the checks are pure functions of the environment, so executing
them in any permutation of the source order yields the same aggregate
result and exit code. -/
theorem main_order_independent (env : Env) (order : List (Fin 4))
    (h : order.Perm [0, 1, 2, 3]) :
    mainWithOrder env order = main env := by
  have hmap : (order.map (checkByIndex env)).Perm
      (([0, 1, 2, 3] : List (Fin 4)).map (checkByIndex env)) := h.map _
  have hall := perm_all_eq id hmap
  unfold mainWithOrder
  rw [hall]
  rfl

/-- Witness for C9: running the checks in reverse order in the scenario
environment yields the same exit code as the source order. -/
theorem main_order_independent_witness :
    ([3, 2, 1, 0] : List (Fin 4)).Perm [0, 1, 2, 3] ∧
    mainWithOrder scenarioEnv [3, 2, 1, 0] = main scenarioEnv :=
  ⟨by decide, main_order_independent scenarioEnv [3, 2, 1, 0] (by decide)⟩

/-- C10: when the metadata directory exists but the first configuration
read (user.name) fails, the second subprocess invocation (user.email) is
never performed and the check returns false: the trace contains only the
user.name command. -/
theorem check_git_setup_username_failure (env : Env)
    (hgit : env.isdir ".git" = true)
    (hfail : ∀ s, env.run gitConfigUserName ≠ RunResult.ok s) :
    check_git_setup env = (false, [gitConfigUserName]) := by
  unfold check_git_setup
  simp only [hgit]
  cases h1 : env.run gitConfigUserName with
  | ok s1 => exact absurd h1 (hfail s1)
  | calledProcessError => simp
  | fileNotFoundError => simp

/-- Witness for C10: in an environment whose metadata directory exists and
whose subprocess calls all exit non-zero, the git check returns false
having invoked only the user.name read. -/
theorem check_git_setup_username_failure_witness :
    gitFailEnv.isdir ".git" = true ∧
    check_git_setup gitFailEnv = (false, [gitConfigUserName]) :=
  ⟨rfl, check_git_setup_username_failure gitFailEnv rfl
    (fun _ h => RunResult.noConfusion h)⟩

end VerifySetup
